import Mathlib

/-
Verification development for the InFact food-product analysis app
(src/app.py).  The app loads a table of food products, filters it by
sidebar criteria, fits a TfidfVectorizer over the product-name column of
the FULL table, and answers a free-text query by cosine similarity of
tf-idf vectors over the filtered view, with a 0.5 confidence threshold
and a suggestion fallback based on pandas Series.str.contains.

Numeric embedding conventions: the floating-point arithmetic of
numpy/sklearn is idealised over the real numbers; tf-idf weights use the
sklearn defaults (lowercasing, token pattern of two or more word
characters, smooth idf = ln((1+n)/(1+df)) + 1, raw term counts).  The
final L2 row normalisation performed by TfidfVectorizer.transform is
omitted because sklearn.metrics.pairwise.cosine_similarity renormalises
both arguments, so the composite score is identical; cosineSim below is
that composite.
-/

namespace InFact

/-- str.lower / Python lower(): map Char.toLower over the characters
(spelled out so that the kernel can evaluate it on literals). -/
def strLower (s : String) : String := String.mk (s.data.map Char.toLower)

/-- Word characters of the default sklearn token pattern (?u)\b\w\w+\b :
alphanumeric characters and the underscore (ASCII fragment of \w). -/
def isWordChar (c : Char) : Bool := c.isAlphanum || c = '_'

/-- Maximal runs of word characters in a character list (the matches of
\w+, before the length-2 cutoff of the token pattern). -/
def wordRuns : List Char → List (List Char)
  | [] => []
  | c :: cs =>
    let rest := wordRuns cs
    if isWordChar c then
      match cs with
      | [] => [[c]]
      | c2 :: _ =>
        if isWordChar c2 then
          match rest with
          | r :: rs => (c :: r) :: rs
          | [] => [[c]]
        else [c] :: rest
    else rest

/-- Tokenization of TfidfVectorizer with default settings: lowercase the
text, keep the maximal word-character runs of length at least two. -/
def tokenize (s : String) : List String :=
  ((wordRuns (strLower s).data).filter (fun r => 2 ≤ r.length)).map (fun r => String.mk r)

/-- Vocabulary learned by vectorizer.fit (src/app.py line 133): the set
of tokens of the fitted names.  sklearn stores it sorted; the order is
immaterial for every similarity below, so first-occurrence order is
used. -/
def vocabulary (fitNames : List String) : List String :=
  ((fitNames.map tokenize).flatten).dedup

/-- Document frequency of a term over the fitted names. -/
def docFreq (fitNames : List String) (t : String) : Nat :=
  fitNames.countP (fun nm => decide (t ∈ tokenize nm))

/-- Smoothed inverse document frequency of sklearn (smooth_idf = true):
ln((1 + n)/(1 + df)) + 1 where n is the number of fitted documents. -/
noncomputable def idf (fitNames : List String) (t : String) : ℝ :=
  Real.log (((fitNames.length : ℝ) + 1) / ((docFreq fitNames t : ℝ) + 1)) + 1

/-- Tf-idf vector of one document under the fitted model
(vectorizer.transform): raw term count times idf on vocabulary terms,
zero elsewhere (out-of-vocabulary query tokens are dropped).  The L2
normalisation of transform is omitted; see the file comment. -/
noncomputable def tfidfVec (fitNames : List String) (doc : String) : String → ℝ :=
  fun t =>
    if t ∈ vocabulary fitNames then ((tokenize doc).count t : ℝ) * idf fitNames t else 0

/-- Dot product of two term-weight vectors over a vocabulary list. -/
noncomputable def dotV (vocab : List String) (u v : String → ℝ) : ℝ :=
  (vocab.map (fun t => u t * v t)).sum

/-- sklearn.metrics.pairwise.cosine_similarity on one pair: dot product
divided by the product of magnitudes, with zero-magnitude vectors giving
similarity 0 (sklearn substitutes norm 1 for zero norms, leaving the
zero vector in place, so the score is 0 and no division error occurs). -/
noncomputable def cosineSim (vocab : List String) (u v : String → ℝ) : ℝ :=
  if dotV vocab u u = 0 ∨ dotV vocab v v = 0 then 0
  else dotV vocab u v / (Real.sqrt (dotV vocab u u) * Real.sqrt (dotV vocab v v))

/-- First maximum of a real list with its index, by right recursion:
the head wins unless some later element is strictly greater.  This is
the contract of np.argmax (first index attaining the maximum), tracked
together with the maximal value. -/
noncomputable def argmaxPair : List ℝ → Option (Nat × ℝ)
  | [] => none
  | x :: xs =>
    match argmaxPair xs with
    | none => some (0, x)
    | some (j, m) => if x < m then some (j + 1, m) else some (0, x)

/-- np.argmax over a real list: the first index attaining the maximum,
and an error (modelled as none) on an empty array. -/
noncomputable def npArgmax (l : List ℝ) : Option Nat :=
  (argmaxPair l).map Prod.fst

/-- A loaded product row (after the cleaning of src/app.py lines
109-112): every text field holds a string (missing cells were filled
with the sentinel "N/A"), the two count fields hold integers. -/
structure Product where
  product_name : String
  brand : String
  category : String
  is_harmful : String
  harmful_ingredient_count : Int
  total_ingredients : Int
  deriving DecidableEq, Repr

/-- Placeholder row used only to give List.getD a default; never
selected, since np.argmax indices are in range. -/
def dfltProduct : Product := ⟨"", "", "", "", 0, 0⟩

/-- Similarity of the query against one candidate name, both vectorized
under the globally fitted model (src/app.py lines 137-139). -/
noncomputable def candSim (fitNames : List String) (query : String) (p : Product) : ℝ :=
  cosineSim (vocabulary fitNames) (tfidfVec fitNames query) (tfidfVec fitNames p.product_name)

/-- Similarity row of search_product (src/app.py line 139): cosine
similarity of the query vector against the vector of each candidate
name.  Line 138 applies dropna to the name column, which is the
identity after loading because loadRow fills every missing name with
"N/A" (see loadRow below). -/
noncomputable def simList (fitNames : List String) (query : String) (data : List Product) : List ℝ :=
  data.map (candSim fitNames query)

/-- Error raised by sklearn cosine_similarity when the candidate matrix
has zero rows: check_pairwise_arrays validates both inputs through
check_array with ensure_min_samples = 1, so a (0, n_features) candidate
matrix is rejected with this ValueError message before any similarity
is computed (and before np.argmax is reached). -/
def emptyCosineMsg (fitNames : List String) : String :=
  "Found array with 0 sample(s) (shape=(0, " ++ toString (vocabulary fitNames).length ++
    ")) while a minimum of 1 is required by check_pairwise_arrays."

/-- search_product (src/app.py lines 136-141): vectorize the query with
the globally fitted model, score every candidate, take np.argmax, and
return the row at that position together with its similarity.  On an
empty candidate list, cosine_similarity itself raises (its input
validation rejects the empty candidate matrix, see emptyCosineMsg), so
the failure occurs at line 139, before np.argmax; the np.argmax
empty-sequence error branch below is therefore unreachable and kept
only to make the match total. -/
noncomputable def searchProduct (fitNames : List String) (query : String) (data : List Product) :
    Except String (Product × ℝ) :=
  if data.isEmpty then .error (emptyCosineMsg fitNames)
  else
    match npArgmax (simList fitNames query data) with
    | none => .error "attempt to get argmax of an empty sequence"
    | some i => .ok (data.getD i dfltProduct, (simList fitNames query data).getD i 0)

/-- A raw CSV row before cleaning: any cell may be missing. -/
structure RawRow where
  product_name : Option String
  brand : Option String
  category : Option String
  is_harmful : Option String
  harmful_ingredient_count : Option String
  total_ingredients : Option String
  deriving DecidableEq, Repr

/-- Integer value of a digit list, most significant first. -/
def digitsVal (ds : List Char) : Int :=
  ds.foldl (fun a c => 10 * a + ((c.toNat - '0'.toNat : Nat) : Int)) 0

/-- pd.to_numeric with errors="coerce" on one cell, restricted to
integer-formatted strings (an optional sign followed by digits); any
other string coerces to none (NaN).  Float-formatted cells are outside
the scope of the claims about these integer count fields. -/
def parseNumeric (s : String) : Option Int :=
  match s.data with
  | [] => none
  | c :: cs =>
    let ds := if c = '-' ∨ c = '+' then cs else c :: cs
    if ds ≠ [] ∧ ds.all Char.isDigit then
      some ((if c = '-' then -1 else 1) * digitsVal ds)
    else none

/-- The numeric-cleaning chain of src/app.py lines 110-112 on one cell:
fillna("N/A"), then pd.to_numeric(errors="coerce"), then fillna(0) and
astype(int).  A missing cell becomes "N/A", fails to parse, and ends at
0; a malformed cell ends at 0; a numeric cell keeps its value. -/
def toNumericCoerce (cell : Option String) : Int :=
  match parseNumeric (cell.getD "N/A") with
  | some k => k
  | none => 0

/-- Row cleaning of src/app.py lines 110-112: every missing text cell is
filled with "N/A" and the two count columns pass through
pd.to_numeric(errors="coerce").fillna(0).astype(int). -/
def loadRow (r : RawRow) : Product :=
  { product_name := r.product_name.getD "N/A"
    brand := r.brand.getD "N/A"
    category := r.category.getD "N/A"
    is_harmful := r.is_harmful.getD "N/A"
    harmful_ingredient_count := toNumericCoerce r.harmful_ingredient_count
    total_ingredients := toNumericCoerce r.total_ingredients }

/-- Sidebar filter state (src/app.py lines 105-107): a category
selectbox defaulting to "All", a brand multiselect, and a harmfulness
radio with values "All" / "Yes" / "No". -/
structure FilterCriteria where
  category : String
  brands : List String
  harmful : String
  deriving DecidableEq, Repr

/-- filtered_data construction (src/app.py lines 115-121): equality on
category unless "All", membership for the brand multiselect unless
empty, case-insensitive equality on the harmful flag unless "All". -/
def applyFilter (c : FilterCriteria) (data : List Product) : List Product :=
  let d1 := if c.category = "All" then data
            else data.filter (fun p => p.category == c.category)
  let d2 := if c.brands.isEmpty then d1
            else d1.filter (fun p => c.brands.contains p.brand)
  if c.harmful = "All" then d2
  else d2.filter (fun p => strLower p.is_harmful == strLower c.harmful)

/-- One pattern character against one text character under
re.IGNORECASE: the dot wildcard matches anything but a newline, other
characters match case-insensitively.  Fragment of the regular-expression
semantics of pandas Series.str.contains (regex=True by default),
faithful for patterns made of literal characters and the dot. -/
def charMatches (p c : Char) : Bool :=
  if p = '.' then c ≠ '\n' else p.toLower = c.toLower

/-- The pattern matches at the start of the text. -/
def matchesAt : List Char → List Char → Bool
  | [], _ => true
  | _ :: _, [] => false
  | p :: ps, c :: cs => charMatches p c && matchesAt ps cs

/-- re.search: the pattern matches at some position of the text. -/
def reSearch (pat : List Char) : List Char → Bool
  | [] => matchesAt pat []
  | c :: cs => matchesAt pat (c :: cs) || reSearch pat cs

/-- The regular-expression metacharacters of Python re other than the
dot.  A pattern free of them is made of literal characters and the dot
wildcard, the fragment whose semantics reSearch models exactly. -/
def reMetachars : List Char := ['^', '$', '*', '+', '?', '{', '}', '[', ']', '\\', '|', '(', ')']

/-- The pattern lies in the literal-and-dot fragment modelled by
reSearch: such patterns always compile under re.compile. -/
def rePatternOk (pat : String) : Bool := pat.data.all (fun c => !(reMetachars.contains c))

/-- Suggestion construction (src/app.py line 184):
filtered_data[filtered_data.product_name.str.contains(query, case=False,
na=False)].  pandas interprets the query as a regular expression
(regex=True is the default) with re.IGNORECASE; na=False is vacuous
after loading since names are never missing.  Order-preserving filter,
no limit on count.  A pattern outside the literal-and-dot fragment is
modelled as the re.error failure path of re.compile; the recorded
message is the one Python raises for the unmatched opening parenthesis
exercised below.  This failure model is faithful for malformed patterns
such as "(", while regex-valid patterns that use other metacharacters
(for example alternation) lie outside the faithful domain of this
development and are excluded from the theorems by the rePatternOk
hypothesis. -/
def suggestions (filtered : List Product) (query : String) : Except String (List Product) :=
  if rePatternOk query then
    .ok (filtered.filter (fun p => reSearch query.data p.product_name.data))
  else .error "missing ), unterminated subpattern at position 0"

/-- Follows the words of the spec, for comparison with the code:
the ordered subsequence of the candidates whose product name contains
the query as a case-insensitive substring. -/
def specSubstringSuggestions (filtered : List Product) (query : String) : List Product :=
  filtered.filter (fun p => decide ((strLower query).data <:+: (strLower p.product_name).data))

/-- Observable outcome of one query evaluation (src/app.py lines
150-190): a confident match with its similarity, the no-match branch
with its suggestion list, or the exception handler reporting an error
message. -/
inductive Outcome where
  | matched : Product → ℝ → Outcome
  | noMatch : List Product → Outcome
  | errorMsg : String → Outcome

/-- Outcome of the suggestion fallback (src/app.py lines 182-188,
inside the try of line 151): the computed suggestion list is shown, or
the re.error raised by str.contains propagates to the exception handler
of lines 189-190 and is reported as an error message. -/
def suggestionsOutcome (filtered : List Product) (query : String) : Outcome :=
  match suggestions filtered query with
  | .ok l => .noMatch l
  | .error e => .errorMsg e

/-- Result branch of src/app.py lines 151-190: run search_product over
the filtered view, show the match when similarity > 0.5, otherwise take
the suggestion fallback; exceptions (from the search or from the
suggestion regex) become an error message. -/
noncomputable def displayResults (fitNames : List String) (filtered : List Product)
    (query : String) : Outcome :=
  match searchProduct fitNames query filtered with
  | .error e => .errorMsg e
  | .ok (result, similarity) =>
    if 0.5 < similarity then .matched result similarity
    else suggestionsOutcome filtered query

/-- One full evaluation of the script on loaded data: the sidebar query
(line 104) and the main-area category and brand selectors (lines
146-147) are read but rebound after filtered_data is already built, so
they take no part in the result; the vector model is fitted over the
names of the FULL corpus (line 133) while the candidates are the
filtered view; nothing is shown when the main query is empty (line
150). -/
noncomputable def runApp (corpus : List Product) (sidebarQuery : String)
    (sidebar : FilterCriteria) (mainCategory : String) (mainBrands : List String)
    (query : String) : Option Outcome :=
  let filtered := applyFilter sidebar corpus
  if query = "" then none
  else some (displayResults (corpus.map (fun p => p.product_name)) filtered query)

/-- Pie-chart inputs for a matched product (src/app.py lines 158-159):
the harmful count and total minus harmful. -/
def chartInputs (p : Product) : Int × Int :=
  (p.harmful_ingredient_count, p.total_ingredients - p.harmful_ingredient_count)

/-- Chart guard of src/app.py line 161: the pie chart is drawn only when
harmful + non_harmful > 0; otherwise the no-chart warning is shown. -/
def chartShown (p : Product) : Bool :=
  decide (0 < (chartInputs p).1 + (chartInputs p).2)

/-- Concrete rows used in the witnesses and counterexamples below. -/
def appleRow : Product := ⟨"Apple", "BrandA", "Fruit", "No", 0, 0⟩

def juiceAppleRow : Product := ⟨"Juice Apple", "B1", "Drinks", "No", 0, 5⟩

def appleJuiceRow : Product := ⟨"Apple Juice", "B2", "Drinks", "No", 0, 5⟩

/-- Raw CSV row of a product with 7 harmful ingredients out of 3 total
ingredients: each count cell parses on its own, nothing relates them. -/
def rawChips : RawRow := ⟨some "Chips", some "BrandC", some "Snacks", some "Yes", some "7", some "3"⟩

def chipsRow : Product := loadRow rawChips

/-- Raw row whose harmful count cell holds the numeral -3. -/
def rawNegRow : RawRow := ⟨some "Soda", some "BrandS", some "Drinks", some "Yes", some "-3", some "10"⟩

/-- Product with 7 harmful ingredients out of 10 (the scenario of the
spec). -/
def sevenTenRow : Product := ⟨"Granola", "BrandG", "Snacks", "Yes", 7, 10⟩

/-- The all-pass filter state: category "All", no brands, harmful "All". -/
def allCriteria : FilterCriteria := ⟨"All", [], "All"⟩

section Lemmas

theorem dotV_nil (u v : String → ℝ) : dotV [] u v = 0 := rfl

theorem dotV_cons (t : String) (ts : List String) (u v : String → ℝ) :
    dotV (t :: ts) u v = u t * v t + dotV ts u v := by
  simp [dotV]

theorem dotV_self_nonneg (vocab : List String) (u : String → ℝ) :
    0 ≤ dotV vocab u u := by
  apply List.sum_nonneg
  intro x hx
  rcases List.mem_map.1 hx with ⟨t, _, rfl⟩
  exact mul_self_nonneg (u t)

theorem dotV_eq_zero (vocab : List String) (u v : String → ℝ)
    (h : ∀ t ∈ vocab, u t * v t = 0) : dotV vocab u v = 0 := by
  apply List.sum_eq_zero
  intro x hx
  rcases List.mem_map.1 hx with ⟨t, ht, rfl⟩
  exact h t ht

theorem dotV_congr_right (vocab : List String) (u v w : String → ℝ)
    (h : ∀ t ∈ vocab, v t = w t) : dotV vocab u v = dotV vocab u w := by
  induction vocab with
  | nil => rfl
  | cons t ts ih =>
    rw [dotV_cons, dotV_cons, h t (List.mem_cons_self t ts),
      ih (fun s hs => h s (List.mem_cons_of_mem t hs))]

/-- Cauchy-Schwarz for dotV, by induction on the vocabulary. -/
theorem dotV_sq_le (vocab : List String) (u v : String → ℝ) :
    (dotV vocab u v) ^ 2 ≤ dotV vocab u u * dotV vocab v v := by
  induction vocab with
  | nil => simp [dotV_nil]
  | cons t ts ih =>
    have hA := dotV_self_nonneg ts u
    have hB := dotV_self_nonneg ts v
    rw [dotV_cons, dotV_cons, dotV_cons]
    by_cases hA0 : dotV ts u u = 0
    · have hS2 : dotV ts u v ^ 2 ≤ 0 := by
        rw [hA0] at ih
        simpa using ih
      have hSsq : dotV ts u v ^ 2 = 0 := le_antisymm hS2 (sq_nonneg _)
      have hS : dotV ts u v = 0 := by
        have h2 : (2 : ℕ) ≠ 0 := two_ne_zero
        exact (pow_eq_zero_iff h2).1 hSsq
      rw [hA0, hS]
      nlinarith [mul_nonneg (mul_self_nonneg (u t)) hB]
    · have hApos : 0 < dotV ts u u := lt_of_le_of_ne hA (Ne.symm hA0)
      nlinarith [sq_nonneg (u t * dotV ts u v - dotV ts u u * v t),
        mul_nonneg (add_nonneg (mul_self_nonneg (u t)) hA) (sub_nonneg.2 ih), hApos]

theorem cosineSim_eq_zero_of_dot (vocab : List String) (u v : String → ℝ)
    (h : dotV vocab u v = 0) : cosineSim vocab u v = 0 := by
  unfold cosineSim
  split
  · rfl
  · rw [h, zero_div]

theorem cosineSim_self (vocab : List String) (u : String → ℝ)
    (h : dotV vocab u u ≠ 0) : cosineSim vocab u u = 1 := by
  unfold cosineSim
  rw [if_neg (by tauto)]
  rw [Real.mul_self_sqrt (dotV_self_nonneg vocab u)]
  exact div_self h

theorem cosineSim_le_one (vocab : List String) (u v : String → ℝ) :
    cosineSim vocab u v ≤ 1 := by
  unfold cosineSim
  split
  · exact zero_le_one
  · rename_i hz
    push_neg at hz
    have hu : 0 < dotV vocab u u := lt_of_le_of_ne (dotV_self_nonneg vocab u) (Ne.symm hz.1)
    have hv : 0 < dotV vocab v v := lt_of_le_of_ne (dotV_self_nonneg vocab v) (Ne.symm hz.2)
    rw [div_le_one (by positivity)]
    calc dotV vocab u v ≤ Real.sqrt (dotV vocab u u * dotV vocab v v) :=
          Real.le_sqrt_of_sq_le (dotV_sq_le vocab u v)
      _ = Real.sqrt (dotV vocab u u) * Real.sqrt (dotV vocab v v) :=
          Real.sqrt_mul hu.le _

theorem cosineSim_congr_right (vocab : List String) (u v w : String → ℝ)
    (h : ∀ t ∈ vocab, v t = w t) : cosineSim vocab u v = cosineSim vocab u w := by
  unfold cosineSim
  rw [dotV_congr_right vocab u v w h,
    dotV_congr_right vocab v v w (fun t ht => h t ht)]
  have h2 : dotV vocab v w = dotV vocab w w := by
    induction vocab with
    | nil => rfl
    | cons t ts ih =>
      rw [dotV_cons, dotV_cons, h t (List.mem_cons_self t ts),
        ih (fun s hs => h s (List.mem_cons_of_mem t hs))]
  rw [h2]

theorem argmaxPair_nil : argmaxPair [] = none := rfl

theorem argmaxPair_cons_none (x : ℝ) (xs : List ℝ) (h : argmaxPair xs = none) :
    argmaxPair (x :: xs) = some (0, x) := by
  rw [argmaxPair, h]

theorem argmaxPair_cons_some (x : ℝ) (xs : List ℝ) (j : Nat) (m : ℝ)
    (h : argmaxPair xs = some (j, m)) :
    argmaxPair (x :: xs) = if x < m then some (j + 1, m) else some (0, x) := by
  rw [argmaxPair, h]

theorem argmaxPair_eq_none_iff (l : List ℝ) : argmaxPair l = none ↔ l = [] := by
  cases l with
  | nil => simp [argmaxPair_nil]
  | cons x xs =>
    constructor
    · intro h
      exfalso
      cases hx : argmaxPair xs with
      | none => rw [argmaxPair_cons_none x xs hx] at h; exact Option.noConfusion h
      | some p =>
        rw [argmaxPair_cons_some x xs p.1 p.2 (by rw [hx])] at h
        by_cases hlt : x < p.2
        · rw [if_pos hlt] at h; exact Option.noConfusion h
        · rw [if_neg hlt] at h; exact Option.noConfusion h
    · intro h
      exact absurd h (List.cons_ne_nil x xs)

theorem tfidfVec_eq_zero_of_count (fitNames : List String) (doc t : String)
    (h : (tokenize doc).count t = 0) : tfidfVec fitNames doc t = 0 := by
  show (if t ∈ vocabulary fitNames
    then ((tokenize doc).count t : ℝ) * idf fitNames t else 0) = 0
  split
  · rw [h]
    norm_num
  · rfl

theorem npArgmax_eq_none_iff (l : List ℝ) : npArgmax l = none ↔ l = [] := by
  rw [npArgmax, Option.map_eq_none']
  exact argmaxPair_eq_none_iff l

/-- argmaxPair returns an in-range index of a maximal element with its
value, with every strictly earlier element strictly smaller
(first-occurrence tie-breaking). -/
theorem argmaxPair_spec (l : List ℝ) (j : Nat) (v : ℝ) (h : argmaxPair l = some (j, v)) :
    ∃ hj : j < l.length, v = l.get ⟨j, hj⟩ ∧
      (∀ m (hm : m < l.length), l.get ⟨m, hm⟩ ≤ v) ∧
      (∀ m (hm : m < l.length), m < j → l.get ⟨m, hm⟩ < v) := by
  induction l generalizing j v with
  | nil => simp [argmaxPair_nil] at h
  | cons x xs ih =>
    cases hx : argmaxPair xs with
    | none =>
      rw [argmaxPair_cons_none x xs hx] at h
      simp only [Option.some.injEq, Prod.mk.injEq] at h
      obtain ⟨rfl, rfl⟩ : j = 0 ∧ v = x := ⟨h.1.symm, h.2.symm⟩
      have hnil : xs = [] := (argmaxPair_eq_none_iff xs).1 hx
      subst hnil
      refine ⟨by simp, rfl, ?_, ?_⟩
      · intro m hm
        have hm0 : m = 0 := by simp at hm; omega
        subst hm0
        exact le_refl _
      · intro m hm hm0
        omega
    | some p =>
      obtain ⟨j0, m0⟩ := p
      rw [argmaxPair_cons_some x xs j0 m0 hx] at h
      rcases ih j0 m0 hx with ⟨hj0, hv0, hmax0, hfirst0⟩
      by_cases hlt : x < m0
      · rw [if_pos hlt] at h
        simp only [Option.some.injEq, Prod.mk.injEq] at h
        obtain ⟨rfl, rfl⟩ : j = j0 + 1 ∧ v = m0 := ⟨h.1.symm, h.2.symm⟩
        refine ⟨by simpa using Nat.succ_lt_succ hj0, by simpa using hv0, ?_, ?_⟩
        · intro m hm
          cases m with
          | zero => exact hlt.le
          | succ m1 => exact hmax0 m1 (Nat.lt_of_succ_lt_succ hm)
        · intro m hm hmj
          cases m with
          | zero => exact hlt
          | succ m1 =>
            exact hfirst0 m1 (Nat.lt_of_succ_lt_succ hm) (Nat.lt_of_succ_lt_succ hmj)
      · rw [if_neg hlt] at h
        simp only [Option.some.injEq, Prod.mk.injEq] at h
        obtain ⟨rfl, rfl⟩ : j = 0 ∧ v = x := ⟨h.1.symm, h.2.symm⟩
        push_neg at hlt
        refine ⟨by simp, rfl, ?_, ?_⟩
        · intro m hm
          cases m with
          | zero => exact le_refl _
          | succ m1 =>
            exact le_trans (hmax0 m1 (Nat.lt_of_succ_lt_succ hm)) (hv0 ▸ hlt)
        · intro m hm hmj
          omega

/-- np.argmax returns an in-range index of a maximal element, and every
strictly earlier element is strictly smaller (first-occurrence
tie-breaking). -/
theorem npArgmax_spec (l : List ℝ) (j : Nat) (h : npArgmax l = some j) :
    ∃ hj : j < l.length,
      (∀ m (hm : m < l.length), l.get ⟨m, hm⟩ ≤ l.get ⟨j, hj⟩) ∧
      (∀ m (hm : m < l.length), m < j → l.get ⟨m, hm⟩ < l.get ⟨j, hj⟩) := by
  rw [npArgmax] at h
  rcases Option.map_eq_some'.1 h with ⟨⟨j', v⟩, hp, hj'⟩
  simp only at hj'
  rcases argmaxPair_spec l j' v hp with ⟨hj, hv, hmax, hfirst⟩
  subst hj'
  exact ⟨hj, fun m hm => hv ▸ hmax m hm, fun m hm hmj => hv ▸ hfirst m hm hmj⟩

/-- Characterisation in the other direction: an in-range index of a
maximal element that strictly dominates every earlier element is THE
np.argmax result. -/
theorem npArgmax_eq_of (l : List ℝ) (j : Nat) (hj : j < l.length)
    (hmax : ∀ m (hm : m < l.length), l.get ⟨m, hm⟩ ≤ l.get ⟨j, hj⟩)
    (hfirst : ∀ m (hm : m < l.length), m < j → l.get ⟨m, hm⟩ < l.get ⟨j, hj⟩) :
    npArgmax l = some j := by
  have hne : l ≠ [] := by
    intro h
    subst h
    simp at hj
  cases hx : npArgmax l with
  | none => exact absurd ((npArgmax_eq_none_iff l).1 hx) hne
  | some j0 =>
    rcases npArgmax_spec l j0 hx with ⟨hj0, hmax0, hfirst0⟩
    rcases lt_trichotomy j0 j with hlt | heq | hgt
    · exact absurd (hmax0 j hj) (not_le_of_lt (hfirst j0 hj0 hlt))
    · rw [heq]
    · exact absurd (hmax j0 hj0) (not_le_of_lt (hfirst0 j hj hgt))

theorem searchProduct_empty (fitNames : List String) (query : String) :
    searchProduct fitNames query [] = .error (emptyCosineMsg fitNames) := rfl

theorem searchProduct_eq_of_argmax (fitNames : List String) (query : String)
    (cs : List Product) (i : Nat) (hx : npArgmax (simList fitNames query cs) = some i) :
    searchProduct fitNames query cs =
      .ok (cs.getD i dfltProduct, (simList fitNames query cs).getD i 0) := by
  cases cs with
  | nil =>
    rw [show npArgmax (simList fitNames query []) = none from rfl] at hx
    exact Option.noConfusion hx
  | cons p ps =>
    unfold searchProduct
    rw [if_neg (show ¬((p :: ps).isEmpty = true) from by simp), hx]

theorem simList_length (fitNames : List String) (query : String) (cs : List Product) :
    (simList fitNames query cs).length = cs.length := by
  simp [simList]

theorem simList_get (fitNames : List String) (query : String) (cs : List Product)
    (m : Nat) (hm : m < cs.length) :
    (simList fitNames query cs).get ⟨m, by rw [simList_length]; exact hm⟩ =
      candSim fitNames query (cs.get ⟨m, hm⟩) := by
  simp [simList]

/-- Backbone of the search claims: on a non-empty candidate list,
search_product returns the row at the np.argmax position together with
its similarity, that similarity is maximal, and every strictly earlier
candidate scores strictly less. -/
theorem searchProduct_spec (fitNames : List String) (query : String)
    (cs : List Product) (h : cs ≠ []) :
    ∃ (i : Nat) (hi : i < cs.length),
      searchProduct fitNames query cs =
        .ok (cs.get ⟨i, hi⟩, candSim fitNames query (cs.get ⟨i, hi⟩)) ∧
      (∀ m (hm : m < cs.length),
        candSim fitNames query (cs.get ⟨m, hm⟩) ≤ candSim fitNames query (cs.get ⟨i, hi⟩)) ∧
      (∀ m (hm : m < cs.length), m < i →
        candSim fitNames query (cs.get ⟨m, hm⟩) < candSim fitNames query (cs.get ⟨i, hi⟩)) := by
  have hsne : simList fitNames query cs ≠ [] := by
    intro hs
    apply h
    have := simList_length fitNames query cs
    rw [hs] at this
    exact List.length_eq_zero.1 this.symm
  cases hx : npArgmax (simList fitNames query cs) with
  | none => exact absurd ((npArgmax_eq_none_iff _).1 hx) hsne
  | some i =>
    rcases npArgmax_spec _ i hx with ⟨hi', hmax, hfirst⟩
    have hi : i < cs.length := by
      rw [simList_length] at hi'
      exact hi'
    refine ⟨i, hi, ?_, ?_, ?_⟩
    · have h1 : cs.getD i dfltProduct = cs.get ⟨i, hi⟩ := List.getD_eq_get cs dfltProduct hi
      have h2 : (simList fitNames query cs).getD i 0 =
          candSim fitNames query (cs.get ⟨i, hi⟩) := by
        rw [List.getD_eq_get _ 0 hi', simList_get]
      rw [searchProduct_eq_of_argmax fitNames query cs i hx, h1, h2]
    · intro m hm
      have := hmax m (by rw [simList_length]; exact hm)
      rwa [simList_get, simList_get] at this
    · intro m hm hmi
      have := hfirst m (by rw [simList_length]; exact hm) hmi
      rwa [simList_get, simList_get] at this

end Lemmas

section Evaluations

theorem displayResults_eq_of_ok (fitNames : List String) (filtered : List Product)
    (query : String) (p : Product) (s : ℝ)
    (h : searchProduct fitNames query filtered = .ok (p, s)) :
    displayResults fitNames filtered query =
      if 0.5 < s then .matched p s else suggestionsOutcome filtered query := by
  unfold displayResults
  rw [h]

theorem suggestionsOutcome_of_patternOk (filtered : List Product) (query : String)
    (h : rePatternOk query = true) :
    suggestionsOutcome filtered query =
      .noMatch (filtered.filter (fun p => reSearch query.data p.product_name.data)) := by
  unfold suggestionsOutcome suggestions
  rw [if_pos h]

theorem suggestionsOutcome_of_patternBad (filtered : List Product) (query : String)
    (h : rePatternOk query = false) :
    suggestionsOutcome filtered query =
      .errorMsg "missing ), unterminated subpattern at position 0" := by
  unfold suggestionsOutcome suggestions
  rw [if_neg (by simp [h])]

theorem displayResults_eq_of_error (fitNames : List String) (filtered : List Product)
    (query : String) (e : String)
    (h : searchProduct fitNames query filtered = .error e) :
    displayResults fitNames filtered query = .errorMsg e := by
  unfold displayResults
  rw [h]

theorem vocab_chips : vocabulary ["Chips"] = ["chips"] := by decide

theorem tfidf_chips_self : tfidfVec ["Chips"] "Chips" "chips" = 1 := by
  show (if "chips" ∈ vocabulary ["Chips"]
    then ((tokenize "Chips").count "chips" : ℝ) * idf ["Chips"] "chips" else 0) = 1
  rw [if_pos (show "chips" ∈ vocabulary ["Chips"] by decide),
    show (tokenize "Chips").count "chips" = 1 from by decide, idf,
    show docFreq ["Chips"] "chips" = 1 from by decide]
  norm_num [Real.log_one]

theorem dot_chips_self :
    dotV (vocabulary ["Chips"]) (tfidfVec ["Chips"] "Chips") (tfidfVec ["Chips"] "Chips") = 1 := by
  rw [vocab_chips, dotV_cons, dotV_nil, tfidf_chips_self]
  norm_num

theorem candSim_chips : candSim ["Chips"] "Chips" chipsRow = 1 := by
  show cosineSim (vocabulary ["Chips"]) (tfidfVec ["Chips"] "Chips")
    (tfidfVec ["Chips"] "Chips") = 1
  exact cosineSim_self _ _ (by rw [dot_chips_self]; norm_num)

theorem eval_search_chips :
    searchProduct ["Chips"] "Chips" [chipsRow] = .ok (chipsRow, 1) := by
  have hsim : simList ["Chips"] "Chips" [chipsRow] = [1] := by
    simp [simList, candSim_chips]
  have hx : npArgmax (simList ["Chips"] "Chips" [chipsRow]) = some 0 := by
    rw [hsim, npArgmax, argmaxPair_cons_none 1 [] argmaxPair_nil]
    rfl
  rw [searchProduct_eq_of_argmax _ _ _ 0 hx, hsim]
  rfl

theorem eval_runApp_chips :
    runApp [chipsRow] "" allCriteria "All" [] "Chips" = some (.matched chipsRow 1) := by
  unfold runApp
  rw [if_neg (show ¬("Chips" = "") by decide)]
  have hfil : applyFilter allCriteria [chipsRow] = [chipsRow] := by decide
  have hnames : [chipsRow].map (fun p => p.product_name) = ["Chips"] := rfl
  rw [hfil, hnames]
  rw [displayResults_eq_of_ok _ _ _ _ _ eval_search_chips]
  rw [if_pos (show (0.5 : ℝ) < 1 by norm_num)]

theorem vocab_twoJuice :
    vocabulary ["Juice Apple", "Apple Juice"] = ["apple", "juice"] := by decide

theorem idf_twoJuice_apple : idf ["Juice Apple", "Apple Juice"] "apple" = 1 := by
  rw [idf, show docFreq ["Juice Apple", "Apple Juice"] "apple" = 2 from by decide]
  norm_num [Real.log_one]

theorem idf_twoJuice_juice : idf ["Juice Apple", "Apple Juice"] "juice" = 1 := by
  rw [idf, show docFreq ["Juice Apple", "Apple Juice"] "juice" = 2 from by decide]
  norm_num [Real.log_one]

theorem tfidf_twoJuice (doc : String) (t : String)
    (hmem : t ∈ vocabulary ["Juice Apple", "Apple Juice"])
    (hcount : (tokenize doc).count t = 1) (hidf : idf ["Juice Apple", "Apple Juice"] t = 1) :
    tfidfVec ["Juice Apple", "Apple Juice"] doc t = 1 := by
  show (if t ∈ vocabulary ["Juice Apple", "Apple Juice"]
    then ((tokenize doc).count t : ℝ) * idf ["Juice Apple", "Apple Juice"] t else 0) = 1
  rw [if_pos hmem, hcount, hidf]
  norm_num

theorem dot_twoJuice_self :
    dotV (vocabulary ["Juice Apple", "Apple Juice"])
      (tfidfVec ["Juice Apple", "Apple Juice"] "Apple Juice")
      (tfidfVec ["Juice Apple", "Apple Juice"] "Apple Juice") = 2 := by
  rw [vocab_twoJuice, dotV_cons, dotV_cons, dotV_nil,
    tfidf_twoJuice "Apple Juice" "apple" (by decide) (by decide) idf_twoJuice_apple,
    tfidf_twoJuice "Apple Juice" "juice" (by decide) (by decide) idf_twoJuice_juice]
  norm_num

theorem candSim_twoJuice_second :
    candSim ["Juice Apple", "Apple Juice"] "Apple Juice" appleJuiceRow = 1 := by
  show cosineSim (vocabulary ["Juice Apple", "Apple Juice"])
    (tfidfVec ["Juice Apple", "Apple Juice"] "Apple Juice")
    (tfidfVec ["Juice Apple", "Apple Juice"] "Apple Juice") = 1
  exact cosineSim_self _ _ (by rw [dot_twoJuice_self]; norm_num)

theorem candSim_twoJuice_first :
    candSim ["Juice Apple", "Apple Juice"] "Apple Juice" juiceAppleRow = 1 := by
  show cosineSim (vocabulary ["Juice Apple", "Apple Juice"])
    (tfidfVec ["Juice Apple", "Apple Juice"] "Apple Juice")
    (tfidfVec ["Juice Apple", "Apple Juice"] "Juice Apple") = 1
  rw [cosineSim_congr_right _ _ _ (tfidfVec ["Juice Apple", "Apple Juice"] "Apple Juice")]
  · exact cosineSim_self _ _ (by rw [dot_twoJuice_self]; norm_num)
  · intro t ht
    rw [vocab_twoJuice] at ht
    rcases List.mem_pair.1 ht with rfl | rfl
    · rw [tfidf_twoJuice "Juice Apple" "apple" (by decide) (by decide) idf_twoJuice_apple,
        tfidf_twoJuice "Apple Juice" "apple" (by decide) (by decide) idf_twoJuice_apple]
    · rw [tfidf_twoJuice "Juice Apple" "juice" (by decide) (by decide) idf_twoJuice_juice,
        tfidf_twoJuice "Apple Juice" "juice" (by decide) (by decide) idf_twoJuice_juice]

theorem eval_search_twoJuice :
    searchProduct ["Juice Apple", "Apple Juice"] "Apple Juice" [juiceAppleRow, appleJuiceRow] =
      .ok (juiceAppleRow, 1) := by
  have hsim : simList ["Juice Apple", "Apple Juice"] "Apple Juice"
      [juiceAppleRow, appleJuiceRow] = [1, 1] := by
    simp [simList, candSim_twoJuice_first, candSim_twoJuice_second]
  have hx : npArgmax (simList ["Juice Apple", "Apple Juice"] "Apple Juice"
      [juiceAppleRow, appleJuiceRow]) = some 0 := by
    rw [hsim, npArgmax,
      argmaxPair_cons_some 1 [1] 0 1 (argmaxPair_cons_none 1 [] argmaxPair_nil),
      if_neg (lt_irrefl (1 : ℝ))]
    rfl
  rw [searchProduct_eq_of_argmax _ _ _ 0 hx, hsim]
  rfl

theorem vocab_oneJuice : vocabulary ["Apple Juice"] = ["apple", "juice"] := by decide

theorem idf_oneJuice (t : String) (h : docFreq ["Apple Juice"] t = 1) :
    idf ["Apple Juice"] t = 1 := by
  rw [idf, h]
  norm_num [Real.log_one]

theorem tfidf_oneJuice (t : String) (hmem : t ∈ vocabulary ["Apple Juice"])
    (hcount : (tokenize "Apple Juice").count t = 1) (hdf : docFreq ["Apple Juice"] t = 1) :
    tfidfVec ["Apple Juice"] "Apple Juice" t = 1 := by
  show (if t ∈ vocabulary ["Apple Juice"]
    then ((tokenize "Apple Juice").count t : ℝ) * idf ["Apple Juice"] t else 0) = 1
  rw [if_pos hmem, hcount, idf_oneJuice t hdf]
  norm_num

theorem dot_oneJuice_self :
    dotV (vocabulary ["Apple Juice"]) (tfidfVec ["Apple Juice"] "Apple Juice")
      (tfidfVec ["Apple Juice"] "Apple Juice") = 2 := by
  rw [vocab_oneJuice, dotV_cons, dotV_cons, dotV_nil,
    tfidf_oneJuice "apple" (by decide) (by decide) (by decide),
    tfidf_oneJuice "juice" (by decide) (by decide) (by decide)]
  norm_num

theorem tfidfVec_zero_of_tokenless (fitNames : List String) (q t : String)
    (h : tokenize q = []) : tfidfVec fitNames q t = 0 :=
  tfidfVec_eq_zero_of_count fitNames q t (by rw [h]; rfl)

theorem candSim_zero_of_tokenless (fitNames : List String) (q : String) (p : Product)
    (h : tokenize q = []) : candSim fitNames q p = 0 := by
  apply cosineSim_eq_zero_of_dot
  apply dotV_eq_zero
  intro t _
  rw [tfidfVec_zero_of_tokenless fitNames q t h, zero_mul]

theorem eval_search_apple_tokenless (q : String) (h : tokenize q = []) :
    searchProduct ["Apple"] q [appleRow] = .ok (appleRow, 0) := by
  have hsim : simList ["Apple"] q [appleRow] = [0] := by
    simp [simList, candSim_zero_of_tokenless ["Apple"] q appleRow h]
  have hx : npArgmax (simList ["Apple"] q [appleRow]) = some 0 := by
    rw [hsim, npArgmax, argmaxPair_cons_none 0 [] argmaxPair_nil]
    rfl
  rw [searchProduct_eq_of_argmax _ _ _ 0 hx, hsim]
  rfl

theorem eval_displayResults_dot :
    displayResults ["Apple"] [appleRow] "." = .noMatch [appleRow] := by
  rw [displayResults_eq_of_ok _ _ _ _ _ (eval_search_apple_tokenless "." (by decide)),
    if_neg (show ¬((0.5 : ℝ) < 0) by norm_num),
    suggestionsOutcome_of_patternOk [appleRow] "." (by decide)]
  rfl

theorem eval_displayResults_paren :
    displayResults ["Apple"] [appleRow] "(" =
      .errorMsg "missing ), unterminated subpattern at position 0" := by
  rw [displayResults_eq_of_ok _ _ _ _ _ (eval_search_apple_tokenless "(" (by decide)),
    if_neg (show ¬((0.5 : ℝ) < 0) by norm_num),
    suggestionsOutcome_of_patternBad [appleRow] "(" (by decide)]

theorem eval_runApp_emptyFilter :
    runApp [appleRow] "" ⟨"Veg", [], "All"⟩ "All" [] "apple" =
      some (.errorMsg (emptyCosineMsg ["Apple"])) := by
  unfold runApp
  rw [if_neg (show ¬("apple" = "") by decide)]
  rw [show applyFilter ⟨"Veg", [], "All"⟩ [appleRow] = [] from by decide]
  show some (displayResults ["Apple"] [] "apple") = _
  rw [displayResults_eq_of_error ["Apple"] [] "apple" _
    (searchProduct_empty ["Apple"] "apple")]

end Evaluations

section Claims

/-- Claim C1: at the failing input (query ".", one candidate named
"Apple", similarity 0 so the fallback is taken), the code suggests the
candidate because pandas str.contains interprets the query as a regular
expression in which the dot matches any character, while the substring
reading of the fallback yields no suggestion: the suggestion list shown
is not the case-insensitive-substring subsequence. -/
theorem c1_suggestions_are_regex_not_substring :
    runApp [appleRow] "" allCriteria "All" [] "." = some (.noMatch [appleRow]) ∧
    suggestions [appleRow] "." = .ok [appleRow] ∧
    specSubstringSuggestions [appleRow] "." = [] := by
  refine ⟨?_, rfl, by decide⟩
  unfold runApp
  rw [if_neg (show ¬("." = "") by decide),
    show applyFilter allCriteria [appleRow] = [appleRow] from by decide,
    show [appleRow].map (fun p => p.product_name) = ["Apple"] from rfl,
    eval_displayResults_dot]

/-- Claim C2 (counterexample): with a non-empty query and an empty
candidate set, the app run ends in the error-message outcome — the
input validation of sklearn cosine_similarity rejecting the empty
candidate matrix ("Found array with 0 sample(s) ..."), caught by the
boundary handler — not in a NoMatch outcome. -/
theorem c2_counterexample :
    runApp [appleRow] "" ⟨"Veg", [], "All"⟩ "All" [] "apple" =
      some (.errorMsg
        "Found array with 0 sample(s) (shape=(0, 1)) while a minimum of 1 is required by check_pairwise_arrays.") ∧
    ∀ l : List Product,
      Outcome.errorMsg
        "Found array with 0 sample(s) (shape=(0, 1)) while a minimum of 1 is required by check_pairwise_arrays."
        ≠ Outcome.noMatch l := by
  refine ⟨?_, ?_⟩
  · rw [eval_runApp_emptyFilter,
      show emptyCosineMsg ["Apple"] =
        "Found array with 0 sample(s) (shape=(0, 1)) while a minimum of 1 is required by check_pairwise_arrays."
        from by decide]
  · intro l h
    exact Outcome.noConfusion h

/-- Claim C2 (amended): on an empty candidate set, the search body
still runs — the query is vectorized — and then cosine_similarity
itself raises (check_pairwise_arrays rejects the empty candidate
matrix, before np.argmax is reached); at the app boundary the exception
handler reports that ValueError as an error message.  NoMatch is not
returned. -/
theorem c2_empty_candidates_error :
    (∀ (fitNames : List String) (query : String),
      searchProduct fitNames query [] = .error (emptyCosineMsg fitNames)) ∧
    (∀ (corpus : List Product) (sq : String) (sb : FilterCriteria) (mc : String)
      (mb : List String) (q : String), q ≠ "" → applyFilter sb corpus = [] →
      runApp corpus sq sb mc mb q =
        some (.errorMsg (emptyCosineMsg (corpus.map (fun p => p.product_name))))) := by
  constructor
  · intro fitNames query
    exact searchProduct_empty fitNames query
  · intro corpus sq sb mc mb q hq hfil
    unfold runApp
    rw [if_neg hq, hfil]
    generalize corpus.map (fun p => p.product_name) = fn
    exact congrArg some
      (displayResults_eq_of_error fn [] q (emptyCosineMsg fn) (searchProduct_empty fn q))

theorem c2_witness :
    runApp [chipsRow] "" ⟨"Nope", [], "All"⟩ "All" [] "q" =
      some (.errorMsg (emptyCosineMsg (List.map (fun p => p.product_name) [chipsRow]))) :=
  c2_empty_candidates_error.2 [chipsRow] "" ⟨"Nope", [], "All"⟩ "All" [] "q"
    (by decide) (by decide)

/-- Claim C3: for any corpus, any two sidebar filter states and any
non-empty query, the app evaluates the search with the vector model
fitted over the names of the FULL corpus (never the filtered view),
while the candidate pool is exactly the filtered view; the fitted names
passed to the search are the same expression for both filter states, so
the term weights given to a query do not depend on the active
filters. -/
theorem c3_fit_over_full_corpus :
    ∀ (corpus : List Product) (sq : String) (s s' : FilterCriteria) (mc : String)
      (mb : List String) (q : String), q ≠ "" →
      runApp corpus sq s mc mb q =
        some (displayResults (corpus.map (fun p => p.product_name))
          (applyFilter s corpus) q) ∧
      runApp corpus sq s' mc mb q =
        some (displayResults (corpus.map (fun p => p.product_name))
          (applyFilter s' corpus) q) := by
  intro corpus sq s s' mc mb q hq
  constructor
  · unfold runApp
    rw [if_neg hq]
  · unfold runApp
    rw [if_neg hq]

theorem c3_witness :
    runApp [chipsRow] "x" allCriteria "All" [] "Chips" =
      some (displayResults ([chipsRow].map (fun p => p.product_name))
        (applyFilter allCriteria [chipsRow]) "Chips") ∧
    runApp [chipsRow] "x" ⟨"Veg", [], "All"⟩ "All" [] "Chips" =
      some (displayResults ([chipsRow].map (fun p => p.product_name))
        (applyFilter ⟨"Veg", [], "All"⟩ [chipsRow]) "Chips") :=
  c3_fit_over_full_corpus [chipsRow] "x" allCriteria ⟨"Veg", [], "All"⟩ "All" [] "Chips"
    (by decide)

/-- Claim C4: on a non-empty candidate set, search returns the row at
the np.argmax position together with its similarity; that similarity is
maximal over the candidates, and every candidate strictly earlier in
the order scores strictly less, so ties (including identical vectors)
resolve deterministically to the first occurrence. -/
theorem c4_first_max_returned :
    ∀ (fitNames : List String) (query : String) (cs : List Product), cs ≠ [] →
      ∃ (i : Nat) (hi : i < cs.length),
        searchProduct fitNames query cs =
          .ok (cs.get ⟨i, hi⟩, candSim fitNames query (cs.get ⟨i, hi⟩)) ∧
        (∀ m (hm : m < cs.length),
          candSim fitNames query (cs.get ⟨m, hm⟩) ≤ candSim fitNames query (cs.get ⟨i, hi⟩)) ∧
        (∀ m (hm : m < cs.length), m < i →
          candSim fitNames query (cs.get ⟨m, hm⟩) < candSim fitNames query (cs.get ⟨i, hi⟩)) :=
  fun fitNames query cs h => searchProduct_spec fitNames query cs h

theorem c4_witness :
    ∃ (i : Nat) (hi : i < [chipsRow].length),
      searchProduct ["Chips"] "Chips" [chipsRow] =
        .ok ([chipsRow].get ⟨i, hi⟩, candSim ["Chips"] "Chips" ([chipsRow].get ⟨i, hi⟩)) ∧
      (∀ m (hm : m < [chipsRow].length),
        candSim ["Chips"] "Chips" ([chipsRow].get ⟨m, hm⟩) ≤
          candSim ["Chips"] "Chips" ([chipsRow].get ⟨i, hi⟩)) ∧
      (∀ m (hm : m < [chipsRow].length), m < i →
        candSim ["Chips"] "Chips" ([chipsRow].get ⟨m, hm⟩) <
          candSim ["Chips"] "Chips" ([chipsRow].get ⟨i, hi⟩)) :=
  c4_first_max_returned ["Chips"] "Chips" [chipsRow] (List.cons_ne_nil chipsRow [])

/-- Claim C5 (counterexample): the query "Apple Juice" is exactly the
name of the second candidate, that name is unique in the corpus, yet
search returns the FIRST candidate "Juice Apple" (similarity 1 as
well, since the two names tokenize to the same multiset), not the
product whose name equals the query. -/
theorem c5_counterexample :
    searchProduct ["Juice Apple", "Apple Juice"] "Apple Juice"
      [juiceAppleRow, appleJuiceRow] = .ok (juiceAppleRow, 1) ∧
    appleJuiceRow.product_name = "Apple Juice" ∧
    juiceAppleRow.product_name ≠ "Apple Juice" ∧
    ([juiceAppleRow, appleJuiceRow].map (fun p => p.product_name)).Nodup :=
  ⟨eval_search_twoJuice, rfl, by decide, by decide⟩

/-- Claim C5 (amended): if the query equals the name of the candidate
at position i, the query vector has nonzero magnitude, and every
earlier candidate scores strictly below 1, then search returns that
candidate with similarity exactly 1.  (Name uniqueness alone does not
suffice: an earlier candidate whose name tokenizes to the same multiset
also scores 1 and wins the first-occurrence tie-break, and a query
whose vector is zero scores 0, not 1.) -/
theorem c5_exact_name_match :
    ∀ (fitNames : List String) (cs : List Product) (i : Nat) (hi : i < cs.length)
      (query : String), query = (cs.get ⟨i, hi⟩).product_name →
      dotV (vocabulary fitNames) (tfidfVec fitNames query) (tfidfVec fitNames query) ≠ 0 →
      (∀ m (hm : m < cs.length), m < i → candSim fitNames query (cs.get ⟨m, hm⟩) < 1) →
      searchProduct fitNames query cs = .ok (cs.get ⟨i, hi⟩, 1) := by
  intro fitNames cs i hi query heq hdot hearlier
  subst heq
  have hne : cs ≠ [] := List.ne_nil_of_length_pos (lt_of_le_of_lt (Nat.zero_le i) hi)
  have hsim_i : candSim fitNames ((cs.get ⟨i, hi⟩).product_name) (cs.get ⟨i, hi⟩) = 1 :=
    cosineSim_self _ _ hdot
  rcases searchProduct_spec fitNames ((cs.get ⟨i, hi⟩).product_name) cs hne with
    ⟨j, hj, hok, hmax, hfirst⟩
  have hij : j = i := by
    rcases lt_trichotomy j i with hlt | hgood | hgt
    · have h1 := hearlier j hj hlt
      have h2 := hmax i hi
      rw [hsim_i] at h2
      exact absurd h2 (not_le_of_lt h1)
    · exact hgood
    · have h1 := hfirst i hi hgt
      rw [hsim_i] at h1
      have h2 : candSim fitNames ((cs.get ⟨i, hi⟩).product_name) (cs.get ⟨j, hj⟩) ≤ 1 :=
        cosineSim_le_one _ _ _
      exact absurd h1 (not_lt_of_le h2)
  subst hij
  rw [hok, hsim_i]

theorem c5_witness :
    searchProduct ["Apple Juice"] "Apple Juice" [appleJuiceRow] =
      .ok (appleJuiceRow, 1) :=
  c5_exact_name_match ["Apple Juice"] [appleJuiceRow] 0 (by decide) "Apple Juice" rfl
    (by rw [dot_oneJuice_self]; norm_num)
    (fun m hm h0 => absurd h0 (Nat.not_lt_zero m))

/-- Claim C6 (counterexample): the query "(" shares no token with any
candidate name (it tokenizes to nothing) and indeed scores 0 against
every candidate, but the outcome is not NoMatch: the fallback passes
the query to str.contains, re.compile rejects the unmatched opening
parenthesis, and the boundary handler reports the re.error — so the
"hence the NoMatch outcome" part of the claim fails for regex-malformed
queries. -/
theorem c6_counterexample :
    tokenize "(" = [] ∧
    (∀ p ∈ [appleRow], candSim ["Apple"] "(" p = 0) ∧
    displayResults ["Apple"] [appleRow] "(" =
      .errorMsg "missing ), unterminated subpattern at position 0" ∧
    (∀ l : List Product,
      Outcome.errorMsg "missing ), unterminated subpattern at position 0" ≠
        Outcome.noMatch l) := by
  refine ⟨by decide, ?_, eval_displayResults_paren, ?_⟩
  · intro p _
    exact candSim_zero_of_tokenless ["Apple"] "(" p (by decide)
  · intro l h
    exact Outcome.noConfusion h

/-- Claim C6 (amended): a zero-magnitude query or candidate vector
yields cosine similarity 0 (cosineSim is total, so no division error
can arise); and for a non-empty candidate set and a query within the
literal-and-dot regex fragment (rePatternOk — in particular any query
free of regex metacharacters), a query sharing no token with any
candidate name scores 0 against every candidate, so the evaluation
takes the NoMatch branch with the suggestion list; a regex-malformed
query instead raises re.error inside the fallback and ends in the
error-message outcome (see the counterexample). -/
theorem c6_zero_similarity :
    (∀ (vocab : List String) (u v : String → ℝ),
      Real.sqrt (dotV vocab u u) = 0 ∨ Real.sqrt (dotV vocab v v) = 0 →
      cosineSim vocab u v = 0) ∧
    (∀ (fitNames : List String) (q : String) (cs : List Product), cs ≠ [] →
      rePatternOk q = true →
      (∀ p ∈ cs, ∀ t ∈ tokenize q, t ∉ tokenize p.product_name) →
      (∀ p ∈ cs, candSim fitNames q p = 0) ∧
      displayResults fitNames cs q =
        .noMatch (cs.filter (fun p => reSearch q.data p.product_name.data))) := by
  constructor
  · intro vocab u v h
    have h0 : dotV vocab u u = 0 ∨ dotV vocab v v = 0 := by
      rcases h with h | h
      · exact Or.inl ((Real.sqrt_eq_zero (dotV_self_nonneg vocab u)).1 h)
      · exact Or.inr ((Real.sqrt_eq_zero (dotV_self_nonneg vocab v)).1 h)
    unfold cosineSim
    rw [if_pos h0]
  · intro fitNames q cs hne hre hdisj
    have hzero : ∀ p ∈ cs, candSim fitNames q p = 0 := by
      intro p hp
      apply cosineSim_eq_zero_of_dot
      apply dotV_eq_zero
      intro t _
      by_cases htq : t ∈ tokenize q
      · have h2 : tfidfVec fitNames p.product_name t = 0 :=
          tfidfVec_eq_zero_of_count fitNames p.product_name t
            (List.count_eq_zero.2 (hdisj p hp t htq))
        rw [h2, mul_zero]
      · have h1 : tfidfVec fitNames q t = 0 :=
          tfidfVec_eq_zero_of_count fitNames q t (List.count_eq_zero.2 htq)
        rw [h1, zero_mul]
    refine ⟨hzero, ?_⟩
    rcases searchProduct_spec fitNames q cs hne with ⟨i, hi, hok, _, _⟩
    have hzi : candSim fitNames q (cs.get ⟨i, hi⟩) = 0 :=
      hzero (cs.get ⟨i, hi⟩) (cs.get_mem i hi)
    rw [displayResults_eq_of_ok _ _ _ _ _ hok, hzi,
      if_neg (show ¬((0.5 : ℝ) < 0) by norm_num),
      suggestionsOutcome_of_patternOk cs q hre]

theorem c6_witness :
    cosineSim [] (fun _ => (0 : ℝ)) (fun _ => (0 : ℝ)) = 0 ∧
    ((∀ p ∈ [appleRow], candSim ["Apple"] "zz" p = 0) ∧
      displayResults ["Apple"] [appleRow] "zz" =
        .noMatch ([appleRow].filter (fun p => reSearch "zz".data p.product_name.data))) :=
  ⟨c6_zero_similarity.1 [] (fun _ => (0 : ℝ)) (fun _ => (0 : ℝ))
      (Or.inl (by rw [dotV_nil, Real.sqrt_zero])),
    c6_zero_similarity.2 ["Apple"] "zz" [appleRow]
      (List.cons_ne_nil appleRow []) (by decide) (by decide)⟩

/-- Claim C7 (counterexample): the loaded product with harmful count 7
and total ingredients 3 is matched with similarity 1 (query equal to
its name), and its chart inputs are (7, -4): the second chart input is
negative, refuting the non-negativity of the claim. -/
theorem c7_counterexample :
    chipsRow = loadRow rawChips ∧
    runApp [chipsRow] "" allCriteria "All" [] "Chips" = some (.matched chipsRow 1) ∧
    chartInputs chipsRow = (7, -4) ∧
    (chartInputs chipsRow).2 < 0 :=
  ⟨rfl, eval_runApp_chips, by decide, by decide⟩

/-- Claim C7 (amended): for a matched product the chart inputs are the
integers (harmful, total - harmful); they are both non-negative
whenever 0 ≤ harmful ≤ total (the code does not enforce this, so a row
with harmful > total yields a negative second input); the chart is
drawn exactly when their sum (the total) is positive, so when both are
zero the no-chart branch is taken; the scenario harmful=7, total=10
gives chart inputs (7, 3). -/
theorem c7_chart_inputs :
    (∀ p : Product,
      chartInputs p =
        (p.harmful_ingredient_count, p.total_ingredients - p.harmful_ingredient_count) ∧
      (0 ≤ p.harmful_ingredient_count → p.harmful_ingredient_count ≤ p.total_ingredients →
        0 ≤ (chartInputs p).1 ∧ 0 ≤ (chartInputs p).2) ∧
      (chartShown p = true ↔ 0 < p.total_ingredients) ∧
      ((chartInputs p).1 = 0 ∧ (chartInputs p).2 = 0 → chartShown p = false)) ∧
    chartInputs sevenTenRow = (7, 3) := by
  refine ⟨?_, by decide⟩
  intro p
  refine ⟨rfl, ?_, ?_, ?_⟩
  · intro h1 h2
    exact ⟨h1, sub_nonneg.2 h2⟩
  · simp only [chartShown, chartInputs, decide_eq_true_eq]
    omega
  · intro h
    simp only [chartInputs] at h
    simp only [chartShown, chartInputs, decide_eq_false_iff_not]
    omega

theorem c7_witness :
    0 ≤ (chartInputs sevenTenRow).1 ∧ 0 ≤ (chartInputs sevenTenRow).2 :=
  ((c7_chart_inputs.1 sevenTenRow).2.1 (by decide) (by decide))

/-- Claim C8 (counterexample): a raw cell holding the numeral -3 loads
to the integer -3, which is negative: the loaded counts are not
guaranteed to be non-negative. -/
theorem c8_counterexample :
    (loadRow rawNegRow).harmful_ingredient_count = -3 ∧
    (loadRow rawNegRow).harmful_ingredient_count < 0 := by
  constructor
  · decide
  · decide

/-- Claim C8 (amended): after loading, both count fields are integers
produced by the coercion chain: a missing cell coerces to 0, a
malformed (non-numeric) cell coerces to 0, and a numeric cell keeps its
(possibly negative) value — so the fields are integers but not
guaranteed non-negative. -/
theorem c8_numeric_coercion :
    ∀ r : RawRow,
      (loadRow r).harmful_ingredient_count = toNumericCoerce r.harmful_ingredient_count ∧
      (loadRow r).total_ingredients = toNumericCoerce r.total_ingredients ∧
      (∀ cell : Option String,
        (cell = none → toNumericCoerce cell = 0) ∧
        (∀ s, cell = some s → parseNumeric s = none → toNumericCoerce cell = 0) ∧
        (∀ s k, cell = some s → parseNumeric s = some k → toNumericCoerce cell = k)) := by
  intro r
  refine ⟨rfl, rfl, ?_⟩
  intro cell
  refine ⟨?_, ?_, ?_⟩
  · intro h
    subst h
    decide
  · intro s hc hp
    subst hc
    unfold toNumericCoerce
    rw [Option.getD_some, hp]
  · intro s k hc hp
    subst hc
    unfold toNumericCoerce
    rw [Option.getD_some, hp]

theorem c8_witness :
    toNumericCoerce (some "abc") = 0 ∧ toNumericCoerce (some "7") = 7 :=
  ⟨((c8_numeric_coercion rawNegRow).2.2 (some "abc")).2.1 "abc" rfl (by decide),
    ((c8_numeric_coercion rawNegRow).2.2 (some "7")).2.2 "7" 7 rfl (by decide)⟩

/-- Claim C9: loading fills every missing product name with the "N/A"
sentinel (so the dropna of the search is the identity and vectors stay
aligned with rows), and whenever search succeeds, the returned product
is the candidate at the np.argmax position — in particular a member of
the candidate set — with its own similarity. -/
theorem c9_result_alignment :
    (∀ r : RawRow, (loadRow r).product_name = r.product_name.getD "N/A") ∧
    (∀ (fitNames : List String) (q : String) (cs : List Product) (p : Product) (s : ℝ),
      searchProduct fitNames q cs = .ok (p, s) →
      ∃ (i : Nat) (hi : i < cs.length), npArgmax (simList fitNames q cs) = some i ∧
        p = cs.get ⟨i, hi⟩ ∧ p ∈ cs ∧ s = candSim fitNames q p) := by
  constructor
  · intro r
    rfl
  · intro fitNames q cs p s h
    cases hx : npArgmax (simList fitNames q cs) with
    | none =>
      have hcs : cs = [] := by
        have hs := (npArgmax_eq_none_iff _).1 hx
        have hlen := simList_length fitNames q cs
        rw [hs] at hlen
        exact List.length_eq_zero.1 hlen.symm
      subst hcs
      rw [searchProduct_empty] at h
      exact Except.noConfusion h
    | some i =>
      rcases npArgmax_spec _ i hx with ⟨hi', _, _⟩
      have hi : i < cs.length := by
        rw [simList_length] at hi'
        exact hi'
      rw [searchProduct_eq_of_argmax fitNames q cs i hx] at h
      have hps := Except.ok.inj h
      have hp : p = cs.get ⟨i, hi⟩ := by
        have := congrArg Prod.fst hps
        simp only at this
        rw [← this, List.getD_eq_get cs dfltProduct hi]
      have hs : s = candSim fitNames q (cs.get ⟨i, hi⟩) := by
        have := congrArg Prod.snd hps
        simp only at this
        rw [← this, List.getD_eq_get _ (0 : ℝ) hi', simList_get]
      exact ⟨i, hi, rfl, hp, hp ▸ cs.get_mem i hi, hp ▸ hs⟩

theorem c9_witness :
    ∃ (i : Nat) (hi : i < [chipsRow].length),
      npArgmax (simList ["Chips"] "Chips" [chipsRow]) = some i ∧
      chipsRow = [chipsRow].get ⟨i, hi⟩ ∧ chipsRow ∈ [chipsRow] ∧
      (1 : ℝ) = candSim ["Chips"] "Chips" chipsRow :=
  c9_result_alignment.2 ["Chips"] "Chips" [chipsRow] chipsRow 1 eval_search_chips

/-- Claim C10: the category and brand selectors of the main area
(src/app.py lines 146-147) rebind variables only after filtered_data is
built and are never read again, so two runs differing only in those two
selections (same corpus, same sidebar state, same query) produce
identical outcomes: same match, same similarity, same suggestion
list. -/
theorem c10_main_selectors_no_effect :
    ∀ (corpus : List Product) (sq : String) (sb : FilterCriteria)
      (mc mc' : String) (mb mb' : List String) (q : String),
      runApp corpus sq sb mc mb q = runApp corpus sq sb mc' mb' q := by
  intro corpus sq sb mc mc' mb mb' q
  rfl

end Claims

end InFact
